import Mathlib

/-!
Shallow embedding of the tunnel supervision engine implemented by class
TunnelManager in src/tunman/tunman/manager.py.

Modelling conventions:
- Machine state of a TunnelManager instance is the structure TunnelManager below
  (the termination flag, the signature list, the Popen handle list, and the
  starts-history dictionary, the latter as an insertion-ordered association list,
  mirroring a Python dict).
- The operating system's process table (what psutil.process_iter sees) is an
  explicit List OsProcess parameter; killing a process removes it from that list.
- External collaborators that are not part of manager.py (the Validation health
  probes, pid allocation by the OS, the wall clock, and the shared termination
  flag as seen at successive sleep ticks) are passed in as explicit oracle
  functions.  Logger calls have no observable effect on the modelled state and
  are dropped.
- The unbounded retry recursion of spawn_ssh_process and the infinite monitoring
  loop of _tunnel_loop are embedded with explicit fuel, and spawn_ssh_process is
  cut at the point where control would enter _tunnel_loop (recorded in the field
  entered_monitoring); one iteration of the monitoring loop is the function
  tunnel_iteration, and tunnel_loop_step additionally performs the relaunch that
  a relaunch-deciding iteration triggers.
- Python truthiness of a string or integer value is modelled as the value being
  nonempty or nonzero.
-/

/-- Modelled from the spec: the validation policy of a tunnel definition
(accessed as definition.validate in manager.py; its class lives in model.py,
which is not under src/).  Fields are exactly the ones manager.py reads. -/
structure ValidationPolicy where
  method : String
  interval : Nat
  wait_time_before_restart : Nat
  kill_existing_tunnel_on_failure : Bool
deriving DecidableEq

/-- Modelled from the spec: a tunnel definition (class Forwarding in model.py,
not under src/): an immutable value with value-based equality, usable as a
dictionary key, that produces a signature string via create_ssh_forwarding. -/
structure Forwarding where
  forwarding_spec : String
  validate : ValidationPolicy
deriving DecidableEq

/-- Modelled from the spec: create_ssh_forwarding deterministically returns the
definition's SSH forwarding signature string. -/
def Forwarding.create_ssh_forwarding (definition : Forwarding) : String :=
  definition.forwarding_spec

/-- Modelled from the spec: per-remote-host settings (class
HostTunnelDefinitions in model.py, not under src/).  Fields are exactly the ones
manager.py reads; an unset optional field is the empty string. -/
structure HostTunnelDefinitions where
  remote_user : String
  remote_host : String
  remote_port : Nat
  remote_password : String
  remote_key : String
  ssh_opts : String
deriving DecidableEq

/-- A handle returned by subprocess.Popen: the pid, and whether poll() would
report that the process has already exited. -/
structure Popen where
  pid : Nat
  exited : Bool
deriving DecidableEq

/-- An OS process as seen through psutil.process_iter: the pid and the command
line argument vector. -/
structure OsProcess where
  pid : Nat
  cmdline : List String
deriving DecidableEq

/-- The command line joined with spaces, as manager.py computes it by
" ".join(proc.cmdline()). -/
def OsProcess.cmdline_str (proc : OsProcess) : String :=
  String.intercalate " " proc.cmdline

/-- The mutable state of a TunnelManager instance: is_terminating, _signatures,
_procs and _starts_history (a Python dict keyed by Forwarding, modelled as an
insertion-ordered association list). -/
structure TunnelManager where
  is_terminating : Bool
  _signatures : List String
  _procs : List Popen
  _starts_history : List (Forwarding × List Nat)
deriving DecidableEq

/-- Dictionary lookup in _starts_history: some value when the definition is a
key of the dict, none otherwise. -/
def historyLookup (h : List (Forwarding × List Nat)) (definition : Forwarding) :
    Option (List Nat) :=
  (h.find? (fun e => decide (e.1 = definition))).map (fun e => e.2)

/-- The _starts_history update performed by spawn_tunnel under the lock:
install an empty list for a missing key, then append today's date. -/
def history_register (h : List (Forwarding × List Nat)) (definition : Forwarding)
    (today : Nat) : List (Forwarding × List Nat) :=
  match historyLookup h definition with
  | none => h ++ [(definition, [today])]
  | some _ =>
      h.map (fun e => if e.1 = definition then (e.1, e.2 ++ [today]) else e)

/-- Containment of one character list in another, scanning left to right. -/
def subListOf (needle : List Char) : List Char → Bool
  | [] => needle.isEmpty
  | c :: t => List.isPrefixOf needle (c :: t) || subListOf needle t

/-- Python's substring test: needle in hay. -/
def strContains (hay needle : String) : Bool :=
  subListOf needle.toList hay.toList

/-- The match test of _find_process_by_signature: the joined command line must
contain the signature text and the text "autossh". -/
def signature_match (signature : String) (proc : OsProcess) : Bool :=
  strContains proc.cmdline_str signature && strContains proc.cmdline_str "autossh"

/-- TunnelManager._find_process_by_signature: scan the OS process table and
return the first process whose command line contains both the signature and
"autossh"; none when there is no match. -/
def _find_process_by_signature (table : List OsProcess) (signature : String) :
    Option OsProcess :=
  table.find? (signature_match signature)

/-- One per-definition entry of the status dictionary built by get_stats. -/
structure ForwardingStatus where
  pid : Option Nat
  is_alive : Bool
  starts_history : List Nat
  restarts_count : Nat
deriving DecidableEq

/-- The dictionary returned by get_stats. -/
structure Stats where
  signatures : List String
  status : List (Forwarding × ForwardingStatus)
  procs_count : Nat
  is_terminating : Bool
deriving DecidableEq

/-- TunnelManager.get_stats: for each definition look up the live process by
signature and the recorded history (empty when the definition was never
registered), and report restarts_count = abs(len(starts_history) - 1), written
with integer subtraction exactly as the Python abs(...) computes it. -/
def get_stats (tm : TunnelManager) (table : List OsProcess)
    (definitions : List Forwarding) : Stats :=
  { signatures := tm._signatures
    status := definitions.map (fun definition =>
      let proc := _find_process_by_signature table definition.create_ssh_forwarding
      let starts_history := (historyLookup tm._starts_history definition).getD []
      (definition,
        { pid := proc.map (fun p => p.pid)
          is_alive := proc.isSome
          starts_history := starts_history
          restarts_count := (((starts_history.length : Int) - 1)).natAbs }))
    procs_count := tm._procs.length
    is_terminating := tm.is_terminating }

/-- TunnelManager._clean_up: drop every Popen handle whose process has already
exited (poll() returned a code). -/
def _clean_up (procs : List Popen) : List Popen :=
  procs.filter (fun proc => ! proc.exited)

/-- The command string assembled inside spawn_ssh_process: an sshpass wrapper
when a password is set, then the fixed autossh invocation with the prebuilt
args in the middle and port/user/host at the end. -/
def build_cmd (configuration : HostTunnelDefinitions) (args : String) : String :=
  (if configuration.remote_password ≠ "" then
      "sshpass -p \"" ++ configuration.remote_password ++ "\" "
    else "")
  ++ "autossh -M 0 -N -f -o \x27PubkeyAuthentication=yes\x27 -o \x27PasswordAuthentication=no\x27 -nT "
  ++ args ++ " "
  ++ "-p " ++ toString configuration.remote_port ++ " "
  ++ configuration.remote_user ++ "@" ++ configuration.remote_host

/-- Result of a call to spawn_ssh_process: the manager state when the call
settles, the commands handed to subprocess.Popen in order, whether control
reached _tunnel_loop (the process survived initialization), and whether the
modelling fuel ran out before that. -/
structure SpawnResult where
  tm : TunnelManager
  spawned : List String
  entered_monitoring : Bool
  fuel_exhausted : Bool
deriving DecidableEq

/-- TunnelManager.spawn_ssh_process: clean up dead handles under the lock,
return at once if the manager is terminating, otherwise build the command,
spawn it, record the handle, wait the settle interval and ask the
is_process_alive probe (oracle indexed by attempt number); on failure back off
and retry recursively, on success enter the monitoring loop (cut point). -/
def spawn_ssh_process (configuration : HostTunnelDefinitions) (args : String)
    (is_process_alive : Nat → Bool) (pid_of : Nat → Nat) :
    Nat → Nat → TunnelManager → SpawnResult
  | 0, _, tm =>
      { tm := tm, spawned := [], entered_monitoring := false, fuel_exhausted := true }
  | fuel + 1, attempt, tm =>
      let tm1 : TunnelManager := { tm with _procs := _clean_up tm._procs }
      if tm1.is_terminating then
        { tm := tm1, spawned := [], entered_monitoring := false, fuel_exhausted := false }
      else
        let cmd := build_cmd configuration args
        let proc : Popen := { pid := pid_of attempt, exited := false }
        let tm2 : TunnelManager := { tm1 with _procs := tm1._procs ++ [proc] }
        if is_process_alive attempt then
          { tm := tm2, spawned := [cmd], entered_monitoring := true, fuel_exhausted := false }
        else
          let retry := spawn_ssh_process configuration args is_process_alive pid_of
            fuel (attempt + 1) tm2
          { retry with spawned := cmd :: retry.spawned }

/-- TunnelManager.spawn_tunnel: build the option string (identity file only
when no custom ssh options are set and a key is present), register the
signature and one timestamped history entry under the lock, then hand off to
spawn_ssh_process. -/
def spawn_tunnel (configuration : HostTunnelDefinitions) (definition : Forwarding)
    (today : Nat) (is_process_alive : Nat → Bool) (pid_of : Nat → Nat) (fuel : Nat)
    (tm : TunnelManager) : SpawnResult :=
  let opts : String :=
    if configuration.ssh_opts = "" then
      (if configuration.remote_key ≠ "" then " -i " ++ configuration.remote_key else "")
    else ""
  let signature := definition.create_ssh_forwarding
  let forwarding := opts ++ " " ++ signature
  let tm1 : TunnelManager := { tm with
    _signatures := tm._signatures ++ [signature]
    _starts_history := history_register tm._starts_history definition today }
  spawn_ssh_process configuration forwarding is_process_alive pid_of fuel 0 tm1

/-- The tail recursion of TunnelManager._carefully_sleep: tick counter i, then
the remaining number of one-second ticks; the termination flag is read through
the oracle at the start of every tick. -/
def _carefully_sleep_from (is_terminating_at : Nat → Bool) : Nat → Nat → Bool
  | _, 0 => true
  | i, n + 1 =>
      if is_terminating_at i then false
      else _carefully_sleep_from is_terminating_at (i + 1) n

/-- TunnelManager._carefully_sleep: sleep sleep_time seconds one tick at a
time, returning false as soon as a tick sees the termination flag set and true
when all ticks complete. -/
def _carefully_sleep (is_terminating_at : Nat → Bool) (sleep_time : Nat) : Bool :=
  _carefully_sleep_from is_terminating_at 0 sleep_time

/-- How one iteration of the while-true loop in _tunnel_loop ends: return
because the cancellable sleep saw the termination flag, return into a relaunch
via spawn_ssh_process, or fall through to the next iteration. -/
inductive LoopDecision where
  | terminated
  | relaunch
  | keep_monitoring
deriving DecidableEq

/-- Observable record of one iteration of _tunnel_loop: how it ended, how many
times Validation.is_process_alive and Validation.check_tunnel_alive were
called, how long the post-failure grace sleep was, the pid killed by signature
(none when no kill happened or no process matched), and whether the recovery
branch was taken. -/
structure IterationOutcome where
  decision : LoopDecision
  liveness_checks : Nat
  probes_run : Nat
  grace_waited : Nat
  killed : Option Nat
  recovered : Bool
deriving DecidableEq

/-- One iteration of TunnelManager._tunnel_loop.  The termination flag during
the cancellable sleep is the tick-indexed oracle is_terminating_at; the result
of Validation.is_process_alive is the boolean is_process_alive; the results of
the successive Validation.check_tunnel_alive calls of this iteration are
check_tunnel_alive 0 and check_tunnel_alive 1.  The grace re-probe runs only
when the configured wait time is nonzero, because the Python conjunction
short-circuits. -/
def tunnel_iteration (definition : Forwarding) (signature : String)
    (is_terminating_at : Nat → Bool) (is_process_alive : Bool)
    (check_tunnel_alive : Nat → Bool) (table : List OsProcess) : IterationOutcome :=
  if ! _carefully_sleep is_terminating_at definition.validate.interval then
    { decision := LoopDecision.terminated, liveness_checks := 0, probes_run := 0,
      grace_waited := 0, killed := none, recovered := false }
  else if ! is_process_alive then
    { decision := LoopDecision.relaunch, liveness_checks := 1, probes_run := 0,
      grace_waited := 0, killed := none, recovered := false }
  else if ! check_tunnel_alive 0 then
    let time_to_wait := definition.validate.wait_time_before_restart
    if time_to_wait ≠ 0 ∧ check_tunnel_alive 1 = true then
      { decision := LoopDecision.keep_monitoring, liveness_checks := 1, probes_run := 2,
        grace_waited := time_to_wait, killed := none, recovered := true }
    else
      { decision := LoopDecision.relaunch, liveness_checks := 1,
        probes_run := if time_to_wait = 0 then 1 else 2,
        grace_waited := time_to_wait,
        killed :=
          if definition.validate.kill_existing_tunnel_on_failure then
            (_find_process_by_signature table signature).map (fun p => p.pid)
          else none,
        recovered := false }
  else
    { decision := LoopDecision.keep_monitoring, liveness_checks := 1, probes_run := 1,
      grace_waited := 0, killed := none, recovered := false }

/-- One iteration of _tunnel_loop together with the state effect of the
relaunch it may trigger: a relaunch decision tail-calls spawn_ssh_process, any
other decision leaves the manager state untouched. -/
def tunnel_loop_step (configuration : HostTunnelDefinitions) (definition : Forwarding)
    (args signature : String) (is_terminating_at : Nat → Bool)
    (is_process_alive : Bool) (check_tunnel_alive : Nat → Bool)
    (table : List OsProcess) (relaunch_alive : Nat → Bool) (pid_of : Nat → Nat)
    (fuel : Nat) (tm : TunnelManager) : IterationOutcome × TunnelManager :=
  let out := tunnel_iteration definition signature is_terminating_at
    is_process_alive check_tunnel_alive table
  match out.decision with
  | LoopDecision.relaunch =>
      (out, (spawn_ssh_process configuration args relaunch_alive pid_of fuel 0 tm).tm)
  | _ => (out, tm)

/-- The per-signature sweep of close_all_tunnels: kill the process found by
_find_process_by_signature, then kill every process whose command line contains
the signature (killing removes the process from the OS table). -/
def kill_matching_signature (table : List OsProcess) (signature : String) :
    List OsProcess :=
  let after_find :=
    match _find_process_by_signature table signature with
    | some found => table.filter (fun q => decide (q ≠ found))
    | none => table
  after_find.filter (fun proc => ! strContains proc.cmdline_str signature)

/-- TunnelManager.close_all_tunnels: set the termination flag, sweep the OS
table once per known signature, then kill every tracked Popen handle by pid.
The _procs, _signatures and _starts_history collections are not modified. -/
def close_all_tunnels (tm : TunnelManager) (table : List OsProcess) :
    TunnelManager × List OsProcess :=
  let tm1 : TunnelManager := { tm with is_terminating := true }
  let table1 := tm1._signatures.foldl kill_matching_signature table
  let table2 := tm1._procs.foldl
    (fun t proc => t.filter (fun p => decide (p.pid ≠ proc.pid))) table1
  (tm1, table2)

theorem carefully_sleep_from_eq_false (flag : Nat → Bool) :
    ∀ n i j, i ≤ j → j < i + n → flag j = true →
      _carefully_sleep_from flag i n = false := by
  intro n
  induction n with
  | zero => intro i j h1 h2 _; omega
  | succ m ih =>
    intro i j h1 h2 hf
    by_cases hi : flag i = true
    · simp [_carefully_sleep_from, hi]
    · rw [Bool.not_eq_true] at hi
      have hne : j ≠ i := by intro h; rw [h, hi] at hf; exact Bool.false_ne_true hf
      simp only [_carefully_sleep_from, hi, if_false]
      exact ih (i + 1) j (by omega) (by omega) hf

theorem carefully_sleep_eq_false (flag : Nat → Bool) (t j : Nat) (hj : j < t)
    (hf : flag j = true) : _carefully_sleep flag t = false :=
  carefully_sleep_from_eq_false flag t 0 j (Nat.zero_le j) (by omega) hf

theorem spawn_ssh_process_preserves (configuration : HostTunnelDefinitions)
    (args : String) (is_process_alive : Nat → Bool) (pid_of : Nat → Nat) :
    ∀ fuel attempt tm,
      (spawn_ssh_process configuration args is_process_alive pid_of fuel attempt tm).tm._starts_history
          = tm._starts_history
      ∧ (spawn_ssh_process configuration args is_process_alive pid_of fuel attempt tm).tm._signatures
          = tm._signatures
      ∧ (spawn_ssh_process configuration args is_process_alive pid_of fuel attempt tm).tm.is_terminating
          = tm.is_terminating := by
  intro fuel
  induction fuel with
  | zero => intro attempt tm; exact ⟨rfl, rfl, rfl⟩
  | succ m ih =>
    intro attempt tm
    simp only [spawn_ssh_process]
    split
    · exact ⟨rfl, rfl, rfl⟩
    · split
      · exact ⟨rfl, rfl, rfl⟩
      · exact ih (attempt + 1) _

theorem spawn_ssh_process_spawned_eq (configuration : HostTunnelDefinitions)
    (args : String) (is_process_alive : Nat → Bool) (pid_of : Nat → Nat) :
    ∀ fuel attempt tm c,
      c ∈ (spawn_ssh_process configuration args is_process_alive pid_of fuel attempt tm).spawned →
      c = build_cmd configuration args := by
  intro fuel
  induction fuel with
  | zero => intro attempt tm c hc; simp [spawn_ssh_process] at hc
  | succ m ih =>
    intro attempt tm c hc
    simp only [spawn_ssh_process] at hc
    split at hc
    · simp at hc
    · split at hc
      · simp at hc; exact hc
      · simp only [List.mem_cons] at hc
        rcases hc with hc | hc
        · exact hc
        · exact ih (attempt + 1) _ c hc

theorem historyLookup_cons (e : Forwarding × List Nat)
    (t : List (Forwarding × List Nat)) (definition : Forwarding) :
    historyLookup (e :: t) definition
      = if e.1 = definition then some e.2 else historyLookup t definition := by
  by_cases he : e.1 = definition
  · simp [historyLookup, List.find?, he]
  · simp [historyLookup, List.find?, he]

theorem historyLookup_append_of_none (h1 h2 : List (Forwarding × List Nat))
    (definition : Forwarding) (hn : historyLookup h1 definition = none) :
    historyLookup (h1 ++ h2) definition = historyLookup h2 definition := by
  induction h1 with
  | nil => rfl
  | cons e t ih =>
    rw [historyLookup_cons] at hn
    by_cases he : e.1 = definition
    · simp [he] at hn
    · rw [if_neg he] at hn
      rw [List.cons_append, historyLookup_cons, if_neg he]
      exact ih hn

theorem historyLookup_map_update_self (definition : Forwarding) (today : Nat) :
    ∀ (h : List (Forwarding × List Nat)) (l : List Nat),
      historyLookup h definition = some l →
      historyLookup
          (h.map (fun e => if e.1 = definition then (e.1, e.2 ++ [today]) else e))
          definition
        = some (l ++ [today]) := by
  intro h
  induction h with
  | nil => intro l hl; simp [historyLookup] at hl
  | cons e t ih =>
    intro l hl
    rw [historyLookup_cons] at hl
    by_cases he : e.1 = definition
    · rw [if_pos he] at hl
      rw [List.map_cons, if_pos he, historyLookup_cons, if_pos he]
      rw [Option.some_inj] at hl
      rw [hl]
    · rw [if_neg he] at hl
      rw [List.map_cons, if_neg he, historyLookup_cons, if_neg he]
      exact ih l hl

theorem historyLookup_map_update_other (definition other : Forwarding) (today : Nat)
    (hne : other ≠ definition) :
    ∀ h : List (Forwarding × List Nat),
      historyLookup
          (h.map (fun e => if e.1 = definition then (e.1, e.2 ++ [today]) else e))
          other
        = historyLookup h other := by
  intro h
  induction h with
  | nil => rfl
  | cons e t ih =>
    by_cases he : e.1 = definition
    · have hno : ¬ e.1 = other := by rw [he]; exact fun h2 => hne h2.symm
      rw [List.map_cons, if_pos he, historyLookup_cons, historyLookup_cons, if_neg hno,
        if_neg (by simpa [he] using hno)]
      exact ih
    · rw [List.map_cons, if_neg he, historyLookup_cons, historyLookup_cons]
      by_cases ho : e.1 = other
      · rw [if_pos ho, if_pos ho]
      · rw [if_neg ho, if_neg ho]
        exact ih

theorem historyLookup_register_self (h : List (Forwarding × List Nat))
    (definition : Forwarding) (today : Nat) :
    historyLookup (history_register h definition today) definition
      = some ((historyLookup h definition).getD [] ++ [today]) := by
  unfold history_register
  cases hl : historyLookup h definition with
  | none =>
    rw [historyLookup_append_of_none h _ definition hl]
    simp [historyLookup_cons]
  | some l =>
    simp only [Option.getD_some]
    exact historyLookup_map_update_self definition today h l hl

theorem historyLookup_register_other (h : List (Forwarding × List Nat))
    (definition other : Forwarding) (today : Nat) (hne : other ≠ definition) :
    historyLookup (history_register h definition today) other
      = historyLookup h other := by
  unfold history_register
  cases hl : historyLookup h definition with
  | none =>
    cases ho : historyLookup h other with
    | none =>
      rw [historyLookup_append_of_none h _ other ho, historyLookup_cons]
      have hd : ¬ (((definition, [today]) : Forwarding × List Nat).1 = other) :=
        fun h2 => hne h2.symm
      rw [if_neg hd]
      rfl
    | some l =>
      unfold historyLookup at ho ⊢
      cases hfind : h.find? (fun e => decide (e.1 = other)) with
      | none => rw [hfind] at ho; simp at ho
      | some e =>
        rw [List.find?_append, hfind]
        rw [hfind] at ho
        simpa using ho
  | some l => exact historyLookup_map_update_other definition other today hne h

theorem find_first_index {α : Type} (p : α → Bool) :
    ∀ (l : List α) (a : α), l.find? p = some a →
      ∃ i : Fin l.length, l.get i = a ∧ p a = true ∧
        ∀ j : Fin l.length, (j : Nat) < (i : Nat) → p (l.get j) = false := by
  intro l
  induction l with
  | nil => intro a h; simp [List.find?] at h
  | cons x t ih =>
    intro a h
    by_cases hx : p x = true
    · have hxa : x = a := by simpa [List.find?, hx] using h
      refine ⟨⟨0, by simp⟩, by simpa using hxa, hxa ▸ hx, ?_⟩
      intro j hj
      exact absurd hj (Nat.not_lt_zero _)
    · rw [Bool.not_eq_true] at hx
      have ht : t.find? p = some a := by simpa [List.find?, hx] using h
      obtain ⟨i, hget, hp, hfirst⟩ := ih a ht
      refine ⟨⟨i.val + 1, by simp⟩, by simpa using hget, hp, ?_⟩
      intro j hj
      match j with
      | ⟨0, h0⟩ => exact hx
      | ⟨k + 1, hk⟩ =>
        have hk2 : k < t.length := by simpa using hk
        have hki : k < i.val := by simpa using hj
        have := hfirst ⟨k, hk2⟩ (by simpa using hki)
        simpa using this

/-- A sample tunnel definition with a five second check interval, a ten second
post-failure wait and kill-on-failure enabled. -/
def d0 : Forwarding :=
  { forwarding_spec := "L:8080:R:8085"
    validate := { method := "local_port_ping", interval := 5,
                  wait_time_before_restart := 10,
                  kill_existing_tunnel_on_failure := true } }

/-- A sample tunnel definition whose check interval and post-failure wait are
both zero. -/
def d3 : Forwarding :=
  { forwarding_spec := "L:1:R:2"
    validate := { method := "local_port_ping", interval := 0,
                  wait_time_before_restart := 0,
                  kill_existing_tunnel_on_failure := true } }

/-- A second sample definition, distinct from d0. -/
def dOther : Forwarding :=
  { forwarding_spec := "L:9090:R:9095"
    validate := { method := "local_port_ping", interval := 5,
                  wait_time_before_restart := 10,
                  kill_existing_tunnel_on_failure := false } }

/-- A sample host configuration with a key file, no password and no custom ssh
options. -/
def cfg0 : HostTunnelDefinitions :=
  { remote_user := "admin", remote_host := "host.example.com", remote_port := 22,
    remote_password := "", remote_key := "/keys/id_rsa", ssh_opts := "" }

/-- A freshly constructed manager: nothing registered, nothing spawned. -/
def tm0 : TunnelManager :=
  { is_terminating := false, _signatures := [], _procs := [], _starts_history := [] }

/-- An OS process whose command line matches the signature of d0 and contains
"autossh". -/
def osp0 : OsProcess :=
  { pid := 77, cmdline := ["autossh", "-M", "0", "L:8080:R:8085"] }

/-- A manager that has spawned d0 once: one signature and one history entry. -/
def tmH : TunnelManager :=
  { is_terminating := false, _signatures := ["L:8080:R:8085"], _procs := [],
    _starts_history := [(d0, [100])] }

/-- A manager tracking one live Popen handle. -/
def tmP : TunnelManager :=
  { is_terminating := false, _signatures := [], _procs := [{ pid := 42, exited := false }],
    _starts_history := [] }

/-- A manager whose termination flag is already set. -/
def tmT : TunnelManager :=
  { is_terminating := true, _signatures := [], _procs := [], _starts_history := [] }

/-- Claim C1: the claim states that get_stats reports
restarts_count = max(len(starts_history) - 1, 0), so that a never-spawned definition
reports 0.  The code computes restarts_count = abs(len(starts_history) - 1), which
reports 1 for a never-spawned definition.  This theorem evaluates get_stats at the
failing input: a definition with no recorded history is reported with
restarts_count = 1, while the claimed value max(0 - 1, 0) is 0. -/
theorem C1_unspawned_definition_reports_one :
    (get_stats tm0 [] [d0]).status
        = [(d0, { pid := none, is_alive := false, starts_history := [],
                  restarts_count := 1 })]
    ∧ max ((([] : List Nat).length : Int) - 1) 0 = 0 := by
  constructor
  · decide
  · decide

/-- A concrete run of one monitoring iteration plus its relaunch: kill-on-failure
set, the process alive, the health probe permanently false, one matching OS
process, relaunch fuel 1. -/
def c2_run : IterationOutcome × TunnelManager :=
  tunnel_loop_step cfg0 d0 " -i /keys/id_rsa L:8080:R:8085" "L:8080:R:8085"
    (fun _ => false) true (fun _ => false) [osp0] (fun _ => true) (fun _ => 7) 1 tmH

/-- Claim C2 counterexample: in the concrete run c2_run the iteration does kill the
process found by signature and does initiate a relaunch, but the relaunch goes
through spawn_ssh_process, which never touches _starts_history: the history for the
definition still has its single old entry afterwards, not one more. -/
theorem C2_counterexample :
    c2_run.1.decision = LoopDecision.relaunch
    ∧ c2_run.1.killed = some 77
    ∧ (historyLookup c2_run.2._starts_history d0).getD [] = [100]
    ∧ ((historyLookup c2_run.2._starts_history d0).getD []).length ≠ 1 + 1 := by
  decide

/-- Claim C2 (amended): for every tunnel whose kill-on-failure flag is set and whose
logical health probe returns false both before and after the post-failure grace
wait, one monitoring iteration kills the process found by signature (absence
tolerated: killed is none and no error occurs when no process matches) and initiates
a relaunch; the relaunch runs spawn_ssh_process, so the starts_history recorded for
the definition stays unchanged rather than growing by one entry. -/
theorem C2_kill_and_relaunch (configuration : HostTunnelDefinitions)
    (definition : Forwarding) (args signature : String) (is_terminating_at : Nat → Bool)
    (check_tunnel_alive : Nat → Bool) (table : List OsProcess)
    (relaunch_alive : Nat → Bool) (pid_of : Nat → Nat) (fuel : Nat) (tm : TunnelManager)
    (hkill : definition.validate.kill_existing_tunnel_on_failure = true)
    (hsleep : _carefully_sleep is_terminating_at definition.validate.interval = true)
    (hp0 : check_tunnel_alive 0 = false) (hp1 : check_tunnel_alive 1 = false) :
    (tunnel_loop_step configuration definition args signature is_terminating_at true
        check_tunnel_alive table relaunch_alive pid_of fuel tm).1.decision
        = LoopDecision.relaunch
    ∧ (tunnel_loop_step configuration definition args signature is_terminating_at true
        check_tunnel_alive table relaunch_alive pid_of fuel tm).1.killed
        = (_find_process_by_signature table signature).map (fun p => p.pid)
    ∧ (tunnel_loop_step configuration definition args signature is_terminating_at true
        check_tunnel_alive table relaunch_alive pid_of fuel tm).2._starts_history
        = tm._starts_history := by
  have hout : tunnel_iteration definition signature is_terminating_at true
      check_tunnel_alive table
      = { decision := LoopDecision.relaunch, liveness_checks := 1,
          probes_run := if definition.validate.wait_time_before_restart = 0 then 1 else 2,
          grace_waited := definition.validate.wait_time_before_restart,
          killed := (_find_process_by_signature table signature).map (fun p => p.pid),
          recovered := false } := by
    unfold tunnel_iteration
    rw [hsleep]
    simp [hp0, hp1, hkill]
  refine ⟨?_, ?_, ?_⟩
  · simp [tunnel_loop_step, hout]
  · simp [tunnel_loop_step, hout]
  · simp only [tunnel_loop_step, hout]
    exact (spawn_ssh_process_preserves configuration args relaunch_alive pid_of
      fuel 0 tm).1

/-- Concrete application of the amended C2 theorem. -/
theorem C2_kill_and_relaunch_witness :
    d0.validate.kill_existing_tunnel_on_failure = true
    ∧ _carefully_sleep (fun _ => false) d0.validate.interval = true
    ∧ (tunnel_loop_step cfg0 d0 " -i /keys/id_rsa L:8080:R:8085" "L:8080:R:8085"
        (fun _ => false) true (fun _ => false) [osp0] (fun _ => true) (fun _ => 7) 1
        tmH).2._starts_history = tmH._starts_history :=
  ⟨by decide, by decide,
    (C2_kill_and_relaunch cfg0 d0 " -i /keys/id_rsa L:8080:R:8085" "L:8080:R:8085"
      (fun _ => false) (fun _ => false) [osp0] (fun _ => true) (fun _ => 7) 1 tmH
      (by decide) (by decide) rfl rfl).2.2⟩

/-- A concrete iteration for a definition whose post-failure wait is zero, with a
probe that fails on its first call and would pass on a second call. -/
def c3_out : IterationOutcome :=
  tunnel_iteration d3 "L:1:R:2" (fun _ => false) true (fun n => decide (n ≠ 0)) []

/-- Claim C3 counterexample: with the post-failure wait configured to 0 and a probe
that fails once and would pass if re-run, the iteration runs the probe only once (the
Python conjunction short-circuits on the zero wait time) and proceeds to relaunch,
whereas the claim requires a second probe run followed by recovery without
relaunch. -/
theorem C3_counterexample :
    c3_out.probes_run = 1
    ∧ c3_out.decision = LoopDecision.relaunch
    ∧ c3_out.recovered = false := by
  decide

/-- Claim C3 (amended): when the logical health probe fails during a monitoring
iteration, the supervisor sleeps the configured post-failure grace period; when that
period is nonzero it then re-runs the probe exactly once, continuing to monitor
without relaunching if the re-run passes and proceeding to kill/relaunch if it still
fails; when the configured wait is 0 the probe is not re-run and the supervisor
proceeds directly to kill/relaunch. -/
theorem C3_grace_recheck (definition : Forwarding) (signature : String)
    (is_terminating_at : Nat → Bool) (check_tunnel_alive : Nat → Bool)
    (table : List OsProcess)
    (hsleep : _carefully_sleep is_terminating_at definition.validate.interval = true)
    (hp0 : check_tunnel_alive 0 = false) :
    (tunnel_iteration definition signature is_terminating_at true check_tunnel_alive
        table).grace_waited = definition.validate.wait_time_before_restart
    ∧ (definition.validate.wait_time_before_restart ≠ 0 →
        (tunnel_iteration definition signature is_terminating_at true check_tunnel_alive
            table).probes_run = 2
        ∧ (check_tunnel_alive 1 = true →
            (tunnel_iteration definition signature is_terminating_at true
                check_tunnel_alive table).decision = LoopDecision.keep_monitoring
            ∧ (tunnel_iteration definition signature is_terminating_at true
                check_tunnel_alive table).recovered = true
            ∧ (tunnel_iteration definition signature is_terminating_at true
                check_tunnel_alive table).killed = none)
        ∧ (check_tunnel_alive 1 = false →
            (tunnel_iteration definition signature is_terminating_at true
                check_tunnel_alive table).decision = LoopDecision.relaunch))
    ∧ (definition.validate.wait_time_before_restart = 0 →
        (tunnel_iteration definition signature is_terminating_at true check_tunnel_alive
            table).probes_run = 1
        ∧ (tunnel_iteration definition signature is_terminating_at true
            check_tunnel_alive table).decision = LoopDecision.relaunch) := by
  by_cases hw : definition.validate.wait_time_before_restart = 0
  · have hout : tunnel_iteration definition signature is_terminating_at true
        check_tunnel_alive table
        = { decision := LoopDecision.relaunch, liveness_checks := 1, probes_run := 1,
            grace_waited := definition.validate.wait_time_before_restart,
            killed :=
              if definition.validate.kill_existing_tunnel_on_failure then
                (_find_process_by_signature table signature).map (fun p => p.pid)
              else none,
            recovered := false } := by
      unfold tunnel_iteration
      rw [hsleep]
      simp [hp0, hw]
    rw [hout]
    exact ⟨rfl, fun hne => absurd hw hne, fun _ => ⟨rfl, rfl⟩⟩
  · by_cases hp1 : check_tunnel_alive 1 = true
    · have hout : tunnel_iteration definition signature is_terminating_at true
          check_tunnel_alive table
          = { decision := LoopDecision.keep_monitoring, liveness_checks := 1,
              probes_run := 2,
              grace_waited := definition.validate.wait_time_before_restart,
              killed := none, recovered := true } := by
        unfold tunnel_iteration
        rw [hsleep]
        simp [hp0, hp1, hw]
      rw [hout]
      refine ⟨rfl, fun _ => ⟨rfl, fun _ => ⟨rfl, rfl, rfl⟩, fun hp1f => ?_⟩,
        fun h0 => absurd h0 hw⟩
      rw [hp1] at hp1f
      exact absurd hp1f (by decide)
    · rw [Bool.not_eq_true] at hp1
      have hout : tunnel_iteration definition signature is_terminating_at true
          check_tunnel_alive table
          = { decision := LoopDecision.relaunch, liveness_checks := 1, probes_run := 2,
              grace_waited := definition.validate.wait_time_before_restart,
              killed :=
                if definition.validate.kill_existing_tunnel_on_failure then
                  (_find_process_by_signature table signature).map (fun p => p.pid)
                else none,
              recovered := false } := by
        unfold tunnel_iteration
        rw [hsleep]
        simp [hp0, hp1, hw]
      rw [hout]
      refine ⟨rfl, fun _ => ⟨rfl, fun hp1t => ?_, fun _ => rfl⟩, fun h0 => absurd h0 hw⟩
      rw [hp1] at hp1t
      exact absurd hp1t (by decide)

/-- Concrete application of the amended C3 theorem: a definition with a nonzero
grace period and a probe that fails once then passes is re-probed and keeps
monitoring. -/
theorem C3_grace_recheck_witness :
    d0.validate.wait_time_before_restart ≠ 0
    ∧ (tunnel_iteration d0 "L:8080:R:8085" (fun _ => false) true
        (fun n => decide (n ≠ 0)) []).probes_run = 2 :=
  ⟨by decide,
    ((C3_grace_recheck d0 "L:8080:R:8085" (fun _ => false) (fun n => decide (n ≠ 0)) []
      (by decide) (by decide)).2.1 (by decide)).1⟩

/-- Claim C4 counterexample: for a manager tracking one live handle, procs_count is
nonzero before shutdown and still nonzero after shutdown: close_all_tunnels kills the
processes but never removes the handles from _procs, so the status query does not
report 0. -/
theorem C4_counterexample :
    ¬ ((get_stats (close_all_tunnels tmP []).1 (close_all_tunnels tmP []).2 []).procs_count = 0
        ∨ (get_stats tmP [] []).procs_count = 0) := by
  decide

/-- Claim C4 (amended): calling shutdown twice in succession raises no error
regardless of whether the targeted processes still exist (the embedding is total and
the second call is a no-op on the manager state), and shutdown leaves procs_count
unchanged: the tracked handle list is not cleared, so procs_count is 0 afterwards
exactly when it was 0 before. -/
theorem C4_shutdown_twice (tm : TunnelManager) (table : List OsProcess)
    (definitions : List Forwarding) :
    (close_all_tunnels (close_all_tunnels tm table).1 (close_all_tunnels tm table).2).1
        = (close_all_tunnels tm table).1
    ∧ (close_all_tunnels tm table).1._procs = tm._procs
    ∧ (close_all_tunnels tm table).1.is_terminating = true
    ∧ (get_stats (close_all_tunnels tm table).1 (close_all_tunnels tm table).2
          definitions).procs_count
        = (get_stats tm table definitions).procs_count :=
  ⟨rfl, rfl, rfl, rfl⟩

/-- Claim C5: if the termination flag becomes set at some tick of the cancellable
sleep at the top of a monitoring iteration, that iteration returns terminated
without running the process-liveness check (0 liveness checks), without running the
logical health probe (0 probe calls), without killing anything, and without
relaunching: the manager state is left untouched by tunnel_loop_step. -/
theorem C5_termination_mid_sleep (configuration : HostTunnelDefinitions)
    (definition : Forwarding) (args signature : String) (is_terminating_at : Nat → Bool)
    (is_process_alive : Bool) (check_tunnel_alive : Nat → Bool) (table : List OsProcess)
    (relaunch_alive : Nat → Bool) (pid_of : Nat → Nat) (fuel : Nat) (tm : TunnelManager)
    (i : Nat) (hi : i < definition.validate.interval)
    (hf : is_terminating_at i = true) :
    tunnel_loop_step configuration definition args signature is_terminating_at
        is_process_alive check_tunnel_alive table relaunch_alive pid_of fuel tm
      = ({ decision := LoopDecision.terminated, liveness_checks := 0, probes_run := 0,
           grace_waited := 0, killed := none, recovered := false }, tm) := by
  have hs := carefully_sleep_eq_false is_terminating_at definition.validate.interval i hi hf
  unfold tunnel_loop_step tunnel_iteration
  rw [hs]
  rfl

/-- Concrete application of the C5 theorem: the flag becomes set at tick 2 of a five
second sleep. -/
theorem C5_termination_mid_sleep_witness :
    2 < d0.validate.interval
    ∧ tunnel_loop_step cfg0 d0 " -i /keys/id_rsa L:8080:R:8085" "L:8080:R:8085"
        (fun i => decide (i = 2)) true (fun _ => true) [osp0] (fun _ => true)
        (fun _ => 7) 1 tmH
      = ({ decision := LoopDecision.terminated, liveness_checks := 0, probes_run := 0,
           grace_waited := 0, killed := none, recovered := false }, tmH) :=
  ⟨by decide,
    C5_termination_mid_sleep cfg0 d0 " -i /keys/id_rsa L:8080:R:8085" "L:8080:R:8085"
      (fun i => decide (i = 2)) true (fun _ => true) [osp0] (fun _ => true)
      (fun _ => 7) 1 tmH 2 (by decide) (by decide)⟩

/-- Claim C6: the internal launch retries inside spawn_ssh_process never modify
_starts_history (for any definition, since the whole dictionary is preserved), and a
fresh top-level spawn_tunnel call appends exactly one timestamped entry for its
definition while leaving the history of every other definition unchanged. -/
theorem C6_history_frame (configuration : HostTunnelDefinitions) (args : String)
    (definition : Forwarding) (today : Nat) (is_process_alive : Nat → Bool)
    (pid_of : Nat → Nat) (fuel attempt : Nat) (tm : TunnelManager) :
    (spawn_ssh_process configuration args is_process_alive pid_of fuel attempt
          tm).tm._starts_history
        = tm._starts_history
    ∧ historyLookup
          (spawn_tunnel configuration definition today is_process_alive pid_of fuel
            tm).tm._starts_history
          definition
        = some ((historyLookup tm._starts_history definition).getD [] ++ [today])
    ∧ ∀ other : Forwarding, other ≠ definition →
        historyLookup
            (spawn_tunnel configuration definition today is_process_alive pid_of fuel
              tm).tm._starts_history
            other
          = historyLookup tm._starts_history other := by
  refine ⟨(spawn_ssh_process_preserves configuration args is_process_alive pid_of
    fuel attempt tm).1, ?_, ?_⟩
  · unfold spawn_tunnel
    rw [(spawn_ssh_process_preserves configuration _ is_process_alive pid_of
      fuel 0 _).1]
    exact historyLookup_register_self tm._starts_history definition today
  · intro other hne
    unfold spawn_tunnel
    rw [(spawn_ssh_process_preserves configuration _ is_process_alive pid_of
      fuel 0 _).1]
    exact historyLookup_register_other tm._starts_history definition other today hne

/-- Concrete application of the C6 theorem: a spawn of d0 leaves the history of
dOther untouched. -/
theorem C6_history_frame_witness :
    dOther ≠ d0
    ∧ historyLookup
        (spawn_tunnel cfg0 d0 200 (fun _ => true) (fun _ => 9) 1 tmH).tm._starts_history
        dOther
      = historyLookup tmH._starts_history dOther :=
  ⟨by decide,
    (C6_history_frame cfg0 " -i /keys/id_rsa L:8080:R:8085" d0 200 (fun _ => true)
      (fun _ => 9) 1 0 tmH).2.2 dOther (by decide)⟩

/-- Claim C7: every command handed to the shell by a spawn of a tunnel definition has
the form [sshpass -p "password" ]autossh -M 0 -N -f ssh-opts forwarding-signature
-p port user@host: the sshpass wrapper is present exactly when a password is set, and
the identity-file option -i key is included exactly when no custom SSH options were
given and a key path is present (the remaining ssh-opts are the fixed
PubkeyAuthentication, PasswordAuthentication and -nT options). -/
theorem C7_launch_command (configuration : HostTunnelDefinitions)
    (definition : Forwarding) (today : Nat) (is_process_alive : Nat → Bool)
    (pid_of : Nat → Nat) (fuel : Nat) (tm : TunnelManager) (c : String)
    (hc : c ∈ (spawn_tunnel configuration definition today is_process_alive pid_of
        fuel tm).spawned) :
    c = (if configuration.remote_password ≠ "" then
            "sshpass -p \"" ++ configuration.remote_password ++ "\" "
          else "")
        ++ "autossh -M 0 -N -f -o \x27PubkeyAuthentication=yes\x27 -o \x27PasswordAuthentication=no\x27 -nT "
        ++ ((if configuration.ssh_opts = "" ∧ configuration.remote_key ≠ "" then
                " -i " ++ configuration.remote_key
              else "") ++ " " ++ definition.create_ssh_forwarding)
        ++ " "
        ++ "-p " ++ toString configuration.remote_port ++ " "
        ++ configuration.remote_user ++ "@" ++ configuration.remote_host := by
  have hb : c = build_cmd configuration
      ((if configuration.ssh_opts = "" then
          (if configuration.remote_key ≠ "" then " -i " ++ configuration.remote_key
            else "")
        else "") ++ " " ++ definition.create_ssh_forwarding) := by
    unfold spawn_tunnel at hc
    exact spawn_ssh_process_spawned_eq configuration _ is_process_alive pid_of
      fuel 0 _ c hc
  rw [hb]
  unfold build_cmd
  by_cases ho : configuration.ssh_opts = ""
  · by_cases hk : configuration.remote_key ≠ ""
    · simp [ho, hk]
    · simp [ho, hk]
  · simp [ho]

/-- Concrete application of the C7 theorem at cfg0 (key file, no password, no custom
options) and d0. -/
theorem C7_launch_command_witness :
    build_cmd cfg0 (" -i /keys/id_rsa" ++ " " ++ d0.create_ssh_forwarding)
        ∈ (spawn_tunnel cfg0 d0 0 (fun _ => true) (fun _ => 3) 1 tm0).spawned
    ∧ build_cmd cfg0 (" -i /keys/id_rsa" ++ " " ++ d0.create_ssh_forwarding)
        = (if cfg0.remote_password ≠ "" then
              "sshpass -p \"" ++ cfg0.remote_password ++ "\" "
            else "")
          ++ "autossh -M 0 -N -f -o \x27PubkeyAuthentication=yes\x27 -o \x27PasswordAuthentication=no\x27 -nT "
          ++ ((if cfg0.ssh_opts = "" ∧ cfg0.remote_key ≠ "" then
                  " -i " ++ cfg0.remote_key
                else "") ++ " " ++ d0.create_ssh_forwarding)
          ++ " "
          ++ "-p " ++ toString cfg0.remote_port ++ " "
          ++ cfg0.remote_user ++ "@" ++ cfg0.remote_host :=
  ⟨by decide,
    C7_launch_command cfg0 d0 0 (fun _ => true) (fun _ => 3) 1 tm0
      (build_cmd cfg0 (" -i /keys/id_rsa" ++ " " ++ d0.create_ssh_forwarding))
      (by decide)⟩

/-- Claim C8: for every signature and every state of the running-process table, the
find-by-signature lookup returns the first process whose command line contains both
the signature text and "autossh" (some returned process is a matching table element
preceded only by non-matching elements), and returns none, not an error, exactly
when no process in the table matches. -/
theorem C8_find_by_signature (table : List OsProcess) (signature : String) :
    (∀ proc, _find_process_by_signature table signature = some proc →
        signature_match signature proc = true
        ∧ ∃ i : Fin table.length, table.get i = proc
            ∧ ∀ j : Fin table.length, (j : Nat) < (i : Nat) →
                signature_match signature (table.get j) = false)
    ∧ (_find_process_by_signature table signature = none ↔
        ∀ proc ∈ table, signature_match signature proc = false) := by
  constructor
  · intro proc hp
    obtain ⟨i, hget, hmatch, hfirst⟩ :=
      find_first_index (signature_match signature) table proc hp
    exact ⟨hmatch, i, hget, hfirst⟩
  · unfold _find_process_by_signature
    rw [List.find?_eq_none]
    constructor
    · intro hn proc hmem
      have h2 := hn proc hmem
      revert h2
      cases signature_match signature proc <;> simp
    · intro hall proc hmem
      rw [hall proc hmem]
      simp

/-- Concrete application of the C8 theorem: on a one-element table whose process
matches, the lookup returns that process as the first match. -/
theorem C8_find_by_signature_witness :
    signature_match "L:8080:R:8085" osp0 = true
    ∧ ∃ i : Fin ([osp0] : List OsProcess).length, ([osp0] : List OsProcess).get i = osp0
        ∧ ∀ j : Fin ([osp0] : List OsProcess).length, (j : Nat) < (i : Nat) →
            signature_match "L:8080:R:8085" (([osp0] : List OsProcess).get j) = false :=
  (C8_find_by_signature [osp0] "L:8080:R:8085").1 osp0 (by decide)

/-- Claim C9: when the termination flag is already set at the check spawn_ssh_process
performs right after the handle clean-up, the call returns at once: no command is
spawned, the process list only underwent the clean-up (nothing was appended), and
the monitoring loop is not entered. -/
theorem C9_terminating_aborts (configuration : HostTunnelDefinitions) (args : String)
    (is_process_alive : Nat → Bool) (pid_of : Nat → Nat) (fuel attempt : Nat)
    (tm : TunnelManager) (hterm : tm.is_terminating = true) :
    spawn_ssh_process configuration args is_process_alive pid_of (fuel + 1) attempt tm
      = { tm := { tm with _procs := _clean_up tm._procs }, spawned := [],
          entered_monitoring := false, fuel_exhausted := false } := by
  simp [spawn_ssh_process, hterm]

/-- Concrete application of the C9 theorem to a manager whose flag is set. -/
theorem C9_terminating_aborts_witness :
    tmT.is_terminating = true
    ∧ spawn_ssh_process cfg0 " -i /keys/id_rsa L:8080:R:8085" (fun _ => true)
        (fun _ => 3) (0 + 1) 0 tmT
      = { tm := { tmT with _procs := _clean_up tmT._procs }, spawned := [],
          entered_monitoring := false, fuel_exhausted := false } :=
  ⟨rfl,
    C9_terminating_aborts cfg0 " -i /keys/id_rsa L:8080:R:8085" (fun _ => true)
      (fun _ => 3) 0 0 tmT rfl⟩

/-- Claim C10: the cancellable sleep with sleep_time = 0 returns true without ever
reading the termination flag (its result does not depend on the flag oracle at all),
and consequently a monitoring iteration of a tunnel whose check interval is 0 never
ends in the terminated decision, whatever the flag does: the sleep point of such a
tunnel is not cancellable. -/
theorem C10_zero_interval (is_terminating_at other_flag : Nat → Bool)
    (definition : Forwarding) (signature : String) (is_process_alive : Bool)
    (check_tunnel_alive : Nat → Bool) (table : List OsProcess)
    (hz : definition.validate.interval = 0) :
    _carefully_sleep is_terminating_at 0 = true
    ∧ _carefully_sleep is_terminating_at 0 = _carefully_sleep other_flag 0
    ∧ (tunnel_iteration definition signature is_terminating_at is_process_alive
          check_tunnel_alive table).decision ≠ LoopDecision.terminated := by
  refine ⟨rfl, rfl, ?_⟩
  have h0 : _carefully_sleep is_terminating_at definition.validate.interval = true := by
    rw [hz]
    rfl
  unfold tunnel_iteration
  rw [h0]
  simp only [Bool.not_true, Bool.false_eq_true, if_false]
  split
  · exact fun h => LoopDecision.noConfusion h
  · split
    · split <;> exact fun h => LoopDecision.noConfusion h
    · exact fun h => LoopDecision.noConfusion h

/-- Concrete application of the C10 theorem to d3, whose interval is 0, under a flag
that is always set. -/
theorem C10_zero_interval_witness :
    d3.validate.interval = 0
    ∧ (tunnel_iteration d3 "L:1:R:2" (fun _ => true) true (fun _ => true)
          []).decision ≠ LoopDecision.terminated :=
  ⟨rfl,
    (C10_zero_interval (fun _ => true) (fun _ => false) d3 "L:1:R:2" true
      (fun _ => true) [] rfl).2.2⟩
